import Mathlib

/-!
Verification of the avocado-cloud scheduler/executor core.

Shallow embedding of `executor.py` (classes `ContainerAssistant`,
`CloudAssistant`, `TestExecutor`) and of the scheduler's outcome handling.
Identifiers (flavors, zones, regions, container names) are modelled as
`List Char`; the external world (cloud CLI answers, container runtime state,
random choices) is passed in explicitly through environment structures, and
Python exceptions are modelled with `Except Unit`.
-/

/-- Identifiers (flavors, availability zones, regions, container names). -/
abbrev Str : Type := List Char

/-! ## CloudAssistant (executor.py, class `CloudAssistant`) -/

/-- One record of `DescribeInstances` output, as consumed by
`CloudAssistant.get_occupied_azones` (fields `InstanceName` and `ZoneId`). -/
structure CloudInstance where
  instanceName : Str
  zoneId : Str
deriving DecidableEq, Repr

/-- State of a `CloudAssistant` object together with the external cloud:
`enabled_regions` and `location_info` are the object attributes set in
`__init__`; `allRegions` models `DescribeRegions`; `describeInstances`
models one `DescribeInstances` call per region (`none` = CLI failure,
which `_get_all_instances` skips); `choose` models the random generator
consumed by `random_pick_azone`. -/
structure Cloud where
  enabled_regions : List Str
  location_info : Str → List Str
  allRegions : List Str
  describeInstances : Str → Option (List CloudInstance)
  choose : Nat

namespace CloudAssistant

/-- `get_possible_azones` (executor.py:293-306): `location_info.get(flavor, [])`
(the default `[]` of the dict lookup is part of `location_info`'s modelling). -/
def get_possible_azones (s : Cloud) (flavor : Str) : List Str :=
  s.location_info flavor

/-- `get_eligible_azones` (executor.py:308-337): empty input gives `[]`;
the sentinel `'*'` among `enabled_regions` returns the input unchanged;
otherwise the loop keeps each zone containing some enabled region as a
substring (`region in azone`), the inner `break` making it one append
per zone. -/
def get_eligible_azones (s : Cloud) (azones : List Str) : List Str :=
  if azones = [] then []
  else if ['*'] ∈ s.enabled_regions then azones
  else azones.foldl
    (fun acc z => if s.enabled_regions.any (fun r => decide (r <:+: z)) then acc ++ [z] else acc) []

/-- `random_pick_azone` (executor.py:339-355): `''` on empty input, otherwise
the entry at the random index (`random.randint(0, len-1)` modelled as
`choose % length`). -/
def random_pick_azone (choose : Nat) (azones : List Str) : Str :=
  if azones = [] then []
  else azones.getD (choose % azones.length) []

/-- Region derivation inside `get_occupied_azones` (executor.py:452-458):
`azone[:-2]` when `azone[-2:-1] == '-'`, else `azone[:-1]`. -/
def regionOfAzone (z : Str) : Str :=
  if z.dropLast.getLast? = some '-' then z.dropLast.dropLast else z.dropLast

/-- The region-collection loop of `get_occupied_azones` (executor.py:450-460):
derived regions in order of first appearance, without duplicates. -/
def regionsFromAzones (azones : List Str) : List Str :=
  azones.foldl
    (fun rs z => if regionOfAzone z ∈ rs then rs else rs ++ [regionOfAzone z]) []

/-- `_get_all_instances` (executor.py:428-446): a falsy `regions` argument
(`None` or `[]`) makes it query every region; a failed CLI call
(`data is None`) is skipped. -/
def get_all_instances (s : Cloud) (regions : Option (List Str)) : List CloudInstance :=
  let rs := match regions with
    | none => s.allRegions
    | some rs => if rs = [] then s.allRegions else rs
  rs.foldl (fun acc r => acc ++ (s.describeInstances r).getD []) []

/-- The instance-name marker `f'{label_prefix}-instance-'`
(executor.py:468). -/
def instanceMarker (labelPre : Str) : Str := labelPre ++ ("-instance-".data)

/-- `get_occupied_azones` (executor.py:448-472): derive deduplicated regions
from `azones` (falsy `azones` leaves `regions = None`), fetch the instances,
and keep the `ZoneId` of every instance whose name contains the marker. -/
def get_occupied_azones (s : Cloud) (labelPre : Str) (azones : Option (List Str)) : List Str :=
  let regions : Option (List Str) :=
    match azones with
    | none => none
    | some zs => if zs = [] then none else some (regionsFromAzones zs)
  ((get_all_instances s regions).filter
      (fun i => decide (instanceMarker labelPre <:+: i.instanceName))).map
    (fun i => i.zoneId)

/-- The `eligible_azones` intermediate of `pick_azone` (executor.py:377). -/
def eligibleOf (s : Cloud) (flavor : Str) : List Str :=
  get_eligible_azones s (get_possible_azones s flavor)

/-- The `available_azones` intermediate of `pick_azone` (executor.py:386-388):
eligible zones minus the occupied ones (default `label_prefix='qeauto'`). -/
def availableOf (s : Cloud) (flavor : Str) : List Str :=
  (eligibleOf s flavor).filter
    (fun x => decide (x ∉ get_occupied_azones s ("qeauto".data) (some (eligibleOf s flavor))))

/-- `pick_azone` (executor.py:357-401): local codes `2` (out of stock),
`3` (not enabled), `4` (occupied), otherwise a random available zone.
`Sum.inl` is the `isinstance(azone, int)` branch seen by the executor. -/
def pick_azone (s : Cloud) (flavor : Str) : Sum Int Str :=
  if get_possible_azones s flavor = [] then Sum.inl 2
  else if eligibleOf s flavor = [] then Sum.inl 3
  else if availableOf s flavor = [] then Sum.inl 4
  else Sum.inr (random_pick_azone s.choose (availableOf s flavor))

end CloudAssistant

/-! ## ContainerAssistant (executor.py, class `ContainerAssistant`) -/

/-- Python `f'{x:0{w}d}'`: decimal digits of `x`, left-padded with `'0'`
to width `w`. -/
def pyZeroPadDec (x : Nat) (w : Nat) : Str :=
  let ds := Nat.toDigits 10 x
  List.replicate (w - ds.length) '0' ++ ds

namespace ContainerAssistant

/-- The pool construction of `ContainerAssistant.__init__` (executor.py:74-78):
`f'{container_pool_name}{x:0{len(str(container_pool_size-1))}d}'` for
`x in range(container_pool_size)`. -/
def container_pool (poolName : Str) (poolSize : Nat) : List Str :=
  (List.range poolSize).map
    (fun x => poolName ++ pyZeroPadDec x (Nat.toDigits 10 (poolSize - 1)).length)

end ContainerAssistant

/-- State of the container runtime and randomness, as consumed by
`ContainerAssistant`: `unavailable name` models `podman inspect --type
container name` succeeding (the container exists); `lockOk name` models the
`podman run --name name … sleep` lock attempt succeeding; `choose` models the
random generator of `random_pick_container`. -/
structure PoolEnv where
  unavailable : Str → Bool
  lockOk : Str → Bool
  choose : Nat

namespace ContainerAssistant

/-- `get_container_status` plus the comprehension in `pick_container`
(executor.py:83-102 and 175-177): the pool entries whose status is
`'available'`, in pool order. -/
def available_containers (env : PoolEnv) (pool : List Str) : List Str :=
  pool.filter (fun n => !(env.unavailable n))

/-- `random_pick_container` (executor.py:104-121): `None` on empty input,
otherwise the entry at the random index. -/
def random_pick_container (choose : Nat) (containers : List Str) : Option Str :=
  if containers = [] then none
  else some (containers.getD (choose % containers.length) [])

/-- `_lock_container` (executor.py:123-141): `0` on success, `1` on error. -/
def lock_container (env : PoolEnv) (container : Str) : Nat :=
  if env.lockOk container then 0 else 1

/-- `pick_container` (executor.py:164-195): `(2, None)` when no pool entry is
available; otherwise pick one at random, lock it when `lock_sec > 0`
(`(3, None)` on lock failure), and return `(0, container)`. -/
def pick_container (env : PoolEnv) (pool : List Str) (lock_sec : Int) : Int × Option Str :=
  if available_containers env pool = [] then (2, none)
  else if lock_sec > 0 then
    if lock_container env
        ((random_pick_container env.choose (available_containers env pool)).getD []) > 0
    then (3, none)
    else (0, some ((random_pick_container env.choose (available_containers env pool)).getD []))
  else (0, some ((random_pick_container env.choose (available_containers env pool)).getD []))

/-- `run_container` (executor.py:197-236): in dry-run mode a random code,
otherwise the test runner's exit code returned verbatim (`res.returncode`). -/
def run_container (dry_run : Bool) (dryCode : Nat) (runnerExit : Int) : Int :=
  if dry_run then (dryCode : Int) else runnerExit

end ContainerAssistant

/-! ## TestExecutor (executor.py, class `TestExecutor`) -/

/-- Environment of one `TestExecutor._run` attempt: the assistants' calls it
makes, each an `Except Unit` so a Python exception (`.error ()`) is a possible
outcome of every step.  `zone` is `self.cloud_assistant.zone` (`[]` when the
config has no truthy override); `pickAzone` is `CloudAssistant.pick_azone`
applied to the flavor; `pickContainer` is `ContainerAssistant.pick_container`;
`provision` is `ConfigAssistant.provision_data` applied to container, flavor
and zone; `runTest` is `ContainerAssistant.run_container` applied to container
and flavor. -/
structure ExecEnv where
  zone : Str
  pickAzone : Str → Except Unit (Sum Int Str)
  pickContainer : Except Unit (Int × Option Str)
  provision : Option Str → Str → Str → Except Unit Int
  runTest : Option Str → Str → Except Unit Int

namespace TestExecutor

/-- The zone step of `_run` (executor.py:699-707): a truthy configured zone is
used directly, otherwise `pick_azone` is consulted (its exception caught and
turned into code 21 by the caller). -/
def resolve_azone (env : ExecEnv) (flavor : Str) : Except Unit (Sum Int Str) :=
  if env.zone = [] then env.pickAzone flavor else Except.ok (Sum.inr env.zone)

/-- `_run` after the zone is resolved (executor.py:712-748): container
acquisition (exception gives 31, `res > 0` gives `res + 30`), provisioning
(exception gives 41, `res > 0` gives `res + 40`), test run (exception gives
11, `res > 0` gives `res + 10`), else 0. -/
def run_after_zone (env : ExecEnv) (flavor azone : Str) : Int :=
  match env.pickContainer with
  | Except.error _ => 31
  | Except.ok (res, container) =>
    if res > 0 then res + 30
    else
      match env.provision container flavor azone with
      | Except.error _ => 41
      | Except.ok pres =>
        if pres > 0 then pres + 40
        else
          match env.runTest container flavor with
          | Except.error _ => 11
          | Except.ok tres =>
            if tres > 0 then tres + 10 else 0

/-- `_run` (executor.py:676-748): a zone-step exception gives 21, an integer
zone outcome `n` is exposed as `n + 20` (`isinstance(azone, int)`), and
otherwise the remaining steps run.  Totality of this function over every
environment embeds the guarantee that `_run` never propagates an exception. -/
def run_attempt (env : ExecEnv) (flavor : Str) : Int :=
  match resolve_azone env flavor with
  | Except.error _ => 21
  | Except.ok (Sum.inl n) => n + 20
  | Except.ok (Sum.inr azone) => run_after_zone env flavor azone

end TestExecutor

/-! ## Scheduler outcome handling

The scheduler component cited by the spec is an empty placeholder in the
source (`scheduler.py:358-360` is `class TestScheduler(): pass`), so the
outcome handling below is modelled from the spec (sections 4.1 and 4.7). -/

/-- Task states of a `TaskRecord` (spec section 3). -/
inductive TaskStatus where
  | TOBERUN | WAITING | RUNNING | FINISHED | WITHDRAWING | WITHDRAWN
deriving DecidableEq, Repr

/-- One `history` entry: a copy of the record at retry time, minus its own
history (spec sections 3 and 8, property 3). -/
structure TaskSnapshot where
  status : TaskStatus
  remaining_retries_testcase : Nat
  remaining_retries_resource : Nat
  status_code : Option Int
deriving DecidableEq, Repr

/-- A task record (spec section 3), restricted to the fields the retry
decision reads and writes. -/
structure TaskRecord where
  status : TaskStatus
  remaining_retries_testcase : Nat
  remaining_retries_resource : Nat
  status_code : Option Int
  history : List TaskSnapshot
deriving DecidableEq, Repr

/-- The record's snapshot pushed to `history` on retry. -/
def TaskRecord.snapshot (t : TaskRecord) : TaskSnapshot :=
  ⟨t.status, t.remaining_retries_testcase, t.remaining_retries_resource, t.status_code⟩

/-- Modelled from the spec: the resource-retry status codes of the outcome
handler (spec section 4.7; `TestScheduler` is absent from the source). -/
def resource_retry_codes : List Int := [12, 23, 24, 31, 32, 33]

/-- Modelled from the spec: the testcase-retry status codes of the outcome
handler (spec section 4.7; `TestScheduler` is absent from the source). -/
def testcase_retry_codes : List Int := [15]

/-- Modelled from the spec: outcome handling plus the task store's retry-mode
`update` (spec sections 4.1 and 4.7; `TestScheduler` is absent from the
source).  The attempt first leaves the record `FINISHED` with its code; a
retry-class code whose counter is strictly positive then resets the record to
`TOBERUN`, decrements that counter, and appends the pre-retry record to
`history`; a zero counter degrades to plain mode. -/
def handle_outcome (t : TaskRecord) (code : Int) : TaskRecord :=
  let fin : TaskRecord := { t with status := TaskStatus.FINISHED, status_code := some code }
  if code ∈ resource_retry_codes then
    if fin.remaining_retries_resource = 0 then fin
    else
      { status := TaskStatus.TOBERUN
        remaining_retries_testcase := fin.remaining_retries_testcase
        remaining_retries_resource := fin.remaining_retries_resource - 1
        status_code := none
        history := fin.history ++ [fin.snapshot] }
  else if code ∈ testcase_retry_codes then
    if fin.remaining_retries_testcase = 0 then fin
    else
      { status := TaskStatus.TOBERUN
        remaining_retries_testcase := fin.remaining_retries_testcase - 1
        remaining_retries_resource := fin.remaining_retries_resource
        status_code := none
        history := fin.history ++ [fin.snapshot] }
  else fin

/-! ## Helper lemmas -/

/-- The append-if loop of `get_eligible_azones` is a filter. -/
theorem foldl_filter_append {α : Type} (p : α → Bool) (l acc : List α) :
    l.foldl (fun acc z => if p z then acc ++ [z] else acc) acc = acc ++ l.filter p := by
  induction l generalizing acc with
  | nil => simp
  | cons z l ih =>
    cases hp : p z <;> simp [List.foldl_cons, hp, ih, List.filter_cons]

/-- The per-region accumulation loop of `_get_all_instances` is a flatMap. -/
theorem foldl_append_flatMap {α β : Type} (f : α → List β) (l : List α) (acc : List β) :
    l.foldl (fun acc r => acc ++ f r) acc = acc ++ l.flatMap f := by
  induction l generalizing acc with
  | nil => simp
  | cons r l ih => simp [List.foldl_cons, ih]

/-- Boolean `any`-of-infix agrees with the decided existential. -/
theorem any_infix_eq_decide (l : List Str) (z : Str) :
    (l.any fun r => decide (r <:+: z)) = decide (∃ r ∈ l, r <:+: z) := by
  by_cases h : ∃ r ∈ l, r <:+: z
  · have h1 : (l.any fun r => decide (r <:+: z)) = true :=
      List.any_eq_true.mpr (by simpa using h)
    simp [h1, h]
  · have : l.any (fun r => decide (r <:+: z)) = false := by
      rw [Bool.eq_false_iff]
      intro hc
      exact h (by simpa using List.any_eq_true.mp hc)
    simp [this, h]

/-- Membership characterization of the dedup fold in `regionsFromAzones`. -/
theorem mem_dedup_foldl {α : Type} (g : α → Str) (l : List α)
    (acc : List Str) (x : Str) :
    x ∈ l.foldl (fun rs z => if g z ∈ rs then rs else rs ++ [g z]) acc ↔
      x ∈ acc ∨ ∃ z ∈ l, g z = x := by
  induction l generalizing acc with
  | nil => simp
  | cons z l ih =>
    by_cases hz : g z ∈ acc
    · simp only [List.foldl_cons, if_pos hz, ih]
      constructor
      · rintro (h | h)
        · exact Or.inl h
        · exact Or.inr (by simpa using Or.inr h)
      · rintro (h | ⟨w, hw, hgw⟩)
        · exact Or.inl h
        · rcases List.mem_cons.mp hw with rfl | hw
          · exact Or.inl (hgw ▸ hz)
          · exact Or.inr ⟨w, hw, hgw⟩
    · simp only [List.foldl_cons, if_neg hz, ih]
      constructor
      · rintro (h | h)
        · rcases List.mem_append.mp h with h | h
          · exact Or.inl h
          · exact Or.inr ⟨z, by simp, (List.mem_singleton.mp h).symm⟩
        · rcases h with ⟨w, hw, hgw⟩
          exact Or.inr ⟨w, by simp [hw], hgw⟩
      · rintro (h | ⟨w, hw, hgw⟩)
        · exact Or.inl (List.mem_append_left _ h)
        · rcases List.mem_cons.mp hw with rfl | hw
          · exact Or.inl (List.mem_append_right _ (by simp [hgw]))
          · exact Or.inr ⟨w, hw, hgw⟩

/-- The dedup fold in `regionsFromAzones` preserves `Nodup`. -/
theorem nodup_dedup_foldl {α : Type} (g : α → Str) (l : List α)
    (acc : List Str) (hacc : acc.Nodup) :
    (l.foldl (fun rs z => if g z ∈ rs then rs else rs ++ [g z]) acc).Nodup := by
  induction l generalizing acc with
  | nil => simpa
  | cons z l ih =>
    by_cases hz : g z ∈ acc
    · simpa [List.foldl_cons, if_pos hz] using ih acc hacc
    · have h2 : (acc ++ [g z]).Nodup :=
        hacc.append (List.nodup_singleton _)
          (fun a ha hb => hz ((List.mem_singleton.mp hb) ▸ ha))
      simpa [List.foldl_cons, if_neg hz] using ih (acc ++ [g z]) h2

/-- A `getD` at an in-bounds random index is a member of the list. -/
theorem getD_mod_mem {α : Type} (l : List α) (n : Nat) (d : α) (h : l ≠ []) :
    l.getD (n % l.length) d ∈ l := by
  have hlen : 0 < l.length := List.length_pos.mpr h
  have hlt : n % l.length < l.length := Nat.mod_lt _ hlen
  rw [List.getD_eq_getElem?_getD, List.getElem?_eq_getElem hlt]
  exact List.getElem_mem hlt

/-- An empty distribution list leaves no eligible zone. -/
theorem eligibleOf_empty_of_possible_empty (s : Cloud) (flavor : Str)
    (h : CloudAssistant.get_possible_azones s flavor = []) :
    CloudAssistant.eligibleOf s flavor = [] := by
  simp [CloudAssistant.eligibleOf, CloudAssistant.get_eligible_azones, h]

/-- No eligible zone leaves no available zone. -/
theorem availableOf_empty_of_eligible_empty (s : Cloud) (flavor : Str)
    (h : CloudAssistant.eligibleOf s flavor = []) :
    CloudAssistant.availableOf s flavor = [] := by
  simp [CloudAssistant.availableOf, h]

/-! ## Claims -/

/-- C4: `get_eligible_azones` returns the input unchanged when `'*'` is among
the enabled regions, and otherwise exactly the order-preserving sublist of
zones containing some enabled region as a substring; the empty input yields
the empty list. -/
theorem C4_get_eligible_azones (s : Cloud) (azones : List Str) :
    ((['*'] : Str) ∈ s.enabled_regions →
      CloudAssistant.get_eligible_azones s azones = azones) ∧
    ((['*'] : Str) ∉ s.enabled_regions →
      CloudAssistant.get_eligible_azones s azones
        = azones.filter fun z => decide (∃ r ∈ s.enabled_regions, r <:+: z)) ∧
    (azones = [] → CloudAssistant.get_eligible_azones s azones = []) := by
  refine ⟨?_, ?_, ?_⟩
  · intro hstar
    unfold CloudAssistant.get_eligible_azones
    by_cases h : azones = []
    · simp [h]
    · simp [h, hstar]
  · intro hstar
    unfold CloudAssistant.get_eligible_azones
    by_cases h : azones = []
    · simp [h]
    · rw [if_neg h, if_neg hstar, foldl_filter_append]
      rw [List.nil_append]
      congr 1
      funext z
      exact any_infix_eq_decide _ _
  · intro h
    simp [CloudAssistant.get_eligible_azones, h]

/-- A cloud state with no stock anywhere and one enabled region. -/
def cloudW1 : Cloud :=
  { enabled_regions := ["cn-beijing".data]
    location_info := fun _ => []
    allRegions := ["cn-beijing".data]
    describeInstances := fun _ => some []
    choose := 0 }

/-- A cloud state with the region filter disabled by the `'*'` sentinel. -/
def cloudWstar : Cloud := { cloudW1 with enabled_regions := [['*']] }

/-- Witness for C4 at concrete inputs: sentinel, filtering and empty cases. -/
theorem C4_get_eligible_azones_witness :
    CloudAssistant.get_eligible_azones cloudWstar ["us-west-1a".data]
      = ["us-west-1a".data] ∧
    CloudAssistant.get_eligible_azones cloudW1 ["cn-beijing-h".data, "us-west-1a".data]
      = ["cn-beijing-h".data] ∧
    CloudAssistant.get_eligible_azones cloudW1 [] = [] :=
  ⟨(C4_get_eligible_azones cloudWstar _).1 (by decide),
   by
    rw [(C4_get_eligible_azones cloudW1 _).2.1 (by decide)]
    decide,
   (C4_get_eligible_azones cloudW1 []).2.2 rfl⟩

/-- C1: `pick_azone` classifies the flavor as out of stock (local signal
`Sum.inl 2`, exposed by the executor as code 22) when its distribution list
is empty, as zone-disabled (`Sum.inl 3`, exposed 23) when no possible zone
survives the enabled-region filter, as zone-occupied (`Sum.inl 4`, exposed
24) when every eligible zone is occupied, and otherwise returns a zone drawn
from the available set. -/
theorem C1_pick_azone_classification (s : Cloud) (flavor : Str) :
    (CloudAssistant.get_possible_azones s flavor = [] →
      CloudAssistant.pick_azone s flavor = Sum.inl 2) ∧
    (CloudAssistant.get_possible_azones s flavor ≠ [] →
      CloudAssistant.eligibleOf s flavor = [] →
      CloudAssistant.pick_azone s flavor = Sum.inl 3) ∧
    (CloudAssistant.eligibleOf s flavor ≠ [] →
      CloudAssistant.availableOf s flavor = [] →
      CloudAssistant.pick_azone s flavor = Sum.inl 4) ∧
    (CloudAssistant.availableOf s flavor ≠ [] →
      ∃ z ∈ CloudAssistant.availableOf s flavor,
        CloudAssistant.pick_azone s flavor = Sum.inr z) ∧
    (∀ env : ExecEnv, env.zone = [] →
      env.pickAzone flavor = Except.ok (CloudAssistant.pick_azone s flavor) →
      (CloudAssistant.get_possible_azones s flavor = [] →
        TestExecutor.run_attempt env flavor = 22) ∧
      (CloudAssistant.get_possible_azones s flavor ≠ [] →
        CloudAssistant.eligibleOf s flavor = [] →
        TestExecutor.run_attempt env flavor = 23) ∧
      (CloudAssistant.eligibleOf s flavor ≠ [] →
        CloudAssistant.availableOf s flavor = [] →
        TestExecutor.run_attempt env flavor = 24)) := by
  have c1 : CloudAssistant.get_possible_azones s flavor = [] →
      CloudAssistant.pick_azone s flavor = Sum.inl 2 := by
    intro h
    simp [CloudAssistant.pick_azone, h]
  have c2 : CloudAssistant.get_possible_azones s flavor ≠ [] →
      CloudAssistant.eligibleOf s flavor = [] →
      CloudAssistant.pick_azone s flavor = Sum.inl 3 := by
    intro h1 h2
    simp [CloudAssistant.pick_azone, h1, h2]
  have c3 : CloudAssistant.eligibleOf s flavor ≠ [] →
      CloudAssistant.availableOf s flavor = [] →
      CloudAssistant.pick_azone s flavor = Sum.inl 4 := by
    intro h1 h2
    have h0 : CloudAssistant.get_possible_azones s flavor ≠ [] :=
      fun hc => h1 (eligibleOf_empty_of_possible_empty s flavor hc)
    simp [CloudAssistant.pick_azone, h0, h1, h2]
  refine ⟨c1, c2, c3, ?_, ?_⟩
  · intro h
    have h1 : CloudAssistant.eligibleOf s flavor ≠ [] :=
      fun hc => h (availableOf_empty_of_eligible_empty s flavor hc)
    have h0 : CloudAssistant.get_possible_azones s flavor ≠ [] :=
      fun hc => h1 (eligibleOf_empty_of_possible_empty s flavor hc)
    refine ⟨CloudAssistant.random_pick_azone s.choose (CloudAssistant.availableOf s flavor),
      ?_, ?_⟩
    · unfold CloudAssistant.random_pick_azone
      rw [if_neg h]
      exact getD_mod_mem _ _ _ h
    · simp [CloudAssistant.pick_azone, h0, h1, h]
  · intro env hz hpa
    have hres : TestExecutor.resolve_azone env flavor
        = Except.ok (CloudAssistant.pick_azone s flavor) := by
      simp [TestExecutor.resolve_azone, hz, hpa]
    refine ⟨?_, ?_, ?_⟩
    · intro h
      simp [TestExecutor.run_attempt, hres, c1 h]
    · intro h1 h2
      simp [TestExecutor.run_attempt, hres, c2 h1 h2]
    · intro h1 h2
      simp [TestExecutor.run_attempt, hres, c3 h1 h2]

/-- The flavor used by concrete witnesses. -/
def flavorW : Str := "ecs.g7.large".data

/-- A cloud state whose only stock is outside the enabled region. -/
def cloudC1b : Cloud := { cloudW1 with location_info := fun _ => ["us-west-1a".data] }

/-- A cloud state whose only eligible zone is occupied by a labelled
instance. -/
def cloudC1c : Cloud :=
  { enabled_regions := ["cn-beijing".data]
    location_info := fun _ => ["cn-beijing-h".data]
    allRegions := ["cn-beijing".data]
    describeInstances := fun _ => some [⟨"qeauto-instance-001".data, "cn-beijing-h".data⟩]
    choose := 0 }

/-- A cloud state with one free eligible zone. -/
def cloudC1d : Cloud := { cloudC1c with describeInstances := fun _ => some [] }

/-- An executor environment wired to a given cloud state, with every later
step succeeding. -/
def execEnvFor (s : Cloud) : ExecEnv :=
  { zone := []
    pickAzone := fun f => Except.ok (CloudAssistant.pick_azone s f)
    pickContainer := Except.ok (0, some ("ac00".data))
    provision := fun _ _ _ => Except.ok 0
    runTest := fun _ _ => Except.ok 0 }

/-- Witness for C1: all four classifications and the three exposed executor
codes, at concrete cloud states. -/
theorem C1_pick_azone_classification_witness :
    CloudAssistant.pick_azone cloudW1 flavorW = Sum.inl 2 ∧
    CloudAssistant.pick_azone cloudC1b flavorW = Sum.inl 3 ∧
    CloudAssistant.pick_azone cloudC1c flavorW = Sum.inl 4 ∧
    (∃ z ∈ CloudAssistant.availableOf cloudC1d flavorW,
      CloudAssistant.pick_azone cloudC1d flavorW = Sum.inr z) ∧
    TestExecutor.run_attempt (execEnvFor cloudW1) flavorW = 22 ∧
    TestExecutor.run_attempt (execEnvFor cloudC1b) flavorW = 23 ∧
    TestExecutor.run_attempt (execEnvFor cloudC1c) flavorW = 24 :=
  ⟨(C1_pick_azone_classification cloudW1 flavorW).1 (by decide),
   (C1_pick_azone_classification cloudC1b flavorW).2.1 (by decide) (by decide),
   (C1_pick_azone_classification cloudC1c flavorW).2.2.1 (by decide) (by decide),
   (C1_pick_azone_classification cloudC1d flavorW).2.2.2.1 (by decide),
   ((C1_pick_azone_classification cloudW1 flavorW).2.2.2.2
      (execEnvFor cloudW1) rfl rfl).1 (by decide),
   ((C1_pick_azone_classification cloudC1b flavorW).2.2.2.2
      (execEnvFor cloudC1b) rfl rfl).2.1 (by decide) (by decide),
   ((C1_pick_azone_classification cloudC1c flavorW).2.2.2.2
      (execEnvFor cloudC1c) rfl rfl).2.2 (by decide) (by decide)⟩

/-- The dedup fold never shrinks a nonempty accumulator to nil. -/
theorem dedup_foldl_ne_nil {α : Type} (g : α → Str) (l : List α)
    (acc : List Str) (h : acc ≠ []) :
    l.foldl (fun rs z => if g z ∈ rs then rs else rs ++ [g z]) acc ≠ [] := by
  induction l generalizing acc with
  | nil => simpa
  | cons z l ih =>
    by_cases hz : g z ∈ acc
    · simpa [List.foldl_cons, if_pos hz] using ih acc h
    · simpa [List.foldl_cons, if_neg hz] using ih (acc ++ [g z]) (by simp)

/-- A nonempty zone list derives a nonempty region list. -/
theorem regionsFromAzones_ne_nil (azones : List Str) (h : azones ≠ []) :
    CloudAssistant.regionsFromAzones azones ≠ [] := by
  cases azones with
  | nil => exact absurd rfl h
  | cons z t =>
    unfold CloudAssistant.regionsFromAzones
    rw [List.foldl_cons]
    have h1 : (if CloudAssistant.regionOfAzone z ∈ ([] : List Str) then ([] : List Str)
        else [] ++ [CloudAssistant.regionOfAzone z]) = [CloudAssistant.regionOfAzone z] := by
      simp
    rw [h1]
    exact dedup_foldl_ne_nil CloudAssistant.regionOfAzone t
      [CloudAssistant.regionOfAzone z] (by simp)

/-- The region rule as the spec words it: remove the trailing two characters
when the second-to-last character is `'-'`, the trailing one otherwise. -/
def regionSpec (z : Str) : Str :=
  if 2 ≤ z.length ∧ z[z.length - 2]? = some '-' then z.take (z.length - 2)
  else z.take (z.length - 1)

/-- The code's slicing-based region derivation agrees with the spec's rule. -/
theorem regionOfAzone_eq_regionSpec (z : Str) :
    CloudAssistant.regionOfAzone z = regionSpec z := by
  rcases List.eq_nil_or_concat z with rfl | ⟨ys, b, rfl⟩
  · rfl
  · rcases List.eq_nil_or_concat ys with rfl | ⟨xs, a, rfl⟩
    · rfl
    · unfold CloudAssistant.regionOfAzone regionSpec
      simp only [List.concat_eq_append]
      have hd : ((xs ++ [a]) ++ [b]).dropLast = xs ++ [a] := by simp
      have hg : (xs ++ [a]).getLast? = some a := by simp
      have hlen : ((xs ++ [a]) ++ [b]).length = xs.length + 2 := by simp
      have hidx : xs.length + 2 - 2 = xs.length := by omega
      have hget : ((xs ++ [a]) ++ [b])[xs.length]? = some a := by
        rw [List.append_assoc, List.getElem?_append_right (le_refl _)]
        simp
      rw [hd, hg, hlen, hidx, hget]
      have htake2 : List.take xs.length ((xs ++ [a]) ++ [b]) = xs := by
        rw [List.append_assoc]
        exact List.take_left xs ([a] ++ [b])
      have htake1 : List.take (xs.length + 2 - 1) ((xs ++ [a]) ++ [b]) = xs ++ [a] := by
        have h2 : xs.length + 2 - 1 = (xs ++ [a]).length := by simp
        rw [h2]
        exact List.take_left (xs ++ [a]) [b]
      have hdrop : (xs ++ [a]).dropLast = xs := by simp
      rw [htake2, htake1, hdrop]
      have hcond : (2 ≤ xs.length + 2 ∧ some a = some '-') ↔ some a = some '-' := by
        simp [Nat.le_add_left]
      by_cases hab : a = '-'
      · rw [if_pos (by simp [hab]), if_pos (hcond.mpr (by simp [hab]))]
      · rw [if_neg (by simp [hab]), if_neg (fun hc => hab (by simpa using (hcond.mp hc)))]

/-- C5 (amended to nonempty zone lists): on a nonempty list of eligible
zones, `get_occupied_azones` derives each zone's region by removing the
trailing two characters when the second-to-last character is `'-'` and the
trailing one otherwise, queries instances once per distinct region so derived
(the derived region list has no duplicates and contains exactly the derived
regions), and returns exactly the zone identifiers of the gathered instances
whose name contains the substring `<label_prefix>-instance-`. -/
theorem C5_get_occupied_azones (s : Cloud) (labelPre : Str) (azones : List Str)
    (h : azones ≠ []) :
    (∀ z, CloudAssistant.regionOfAzone z = regionSpec z) ∧
    (CloudAssistant.regionsFromAzones azones).Nodup ∧
    (∀ r, r ∈ CloudAssistant.regionsFromAzones azones ↔
      ∃ z ∈ azones, regionSpec z = r) ∧
    CloudAssistant.get_occupied_azones s labelPre (some azones)
      = (((CloudAssistant.regionsFromAzones azones).flatMap
            (fun r => (s.describeInstances r).getD [])).filter
          (fun i => decide (CloudAssistant.instanceMarker labelPre <:+: i.instanceName))).map
        (fun i => i.zoneId) := by
  refine ⟨regionOfAzone_eq_regionSpec, ?_, ?_, ?_⟩
  · exact nodup_dedup_foldl _ _ _ List.nodup_nil
  · intro r
    unfold CloudAssistant.regionsFromAzones
    rw [mem_dedup_foldl]
    simp [regionOfAzone_eq_regionSpec]
  · simp only [CloudAssistant.get_occupied_azones]
    rw [if_neg h]
    simp only [CloudAssistant.get_all_instances]
    rw [if_neg (regionsFromAzones_ne_nil azones h)]
    rw [foldl_append_flatMap, List.nil_append]

/-- Witness for C5 (amended): a concrete occupied zone computed through the
derived-region query. -/
theorem C5_get_occupied_azones_witness :
    CloudAssistant.get_occupied_azones cloudC1c ("qeauto".data)
      (some ["cn-beijing-h".data]) = ["cn-beijing-h".data] := by
  rw [(C5_get_occupied_azones cloudC1c ("qeauto".data) ["cn-beijing-h".data]
    (by decide)).2.2.2]
  decide

/-- The cloud state of the C5 counterexample: one region in the account,
holding one labelled instance. -/
def cloudC5 : Cloud :=
  { enabled_regions := []
    location_info := fun _ => []
    allRegions := ["cn-beijing".data]
    describeInstances := fun _ => some [⟨"qeauto-instance-001".data, "cn-beijing-h".data⟩]
    choose := 0 }

/-- C5 counterexample: the claim quantifies over every list of eligible
zones, and on the empty list it predicts that no region is derived and the
result is empty; the code instead treats the empty list as falsy
(`if azones:`), queries every region of the account, and returns the
occupied zones found there. -/
theorem C5_get_occupied_azones_counterexample :
    CloudAssistant.get_occupied_azones cloudC5 ("qeauto".data) (some [])
      = ["cn-beijing-h".data] ∧
    ("cn-beijing-h".data : Str) ≠ [] := by
  constructor
  · decide
  · decide

/-- C6: for pool size `n ≥ 1` the sandbox pool has `n` entries, the `i`-th
being the prefix followed by the decimal value of `i` zero-padded to the
digit count of `n - 1`; prefix `ac` with size 32 yields `ac00` through
`ac31`. -/
theorem C6_container_pool (p : Str) (n : Nat) (_hn : 1 ≤ n) :
    (ContainerAssistant.container_pool p n).length = n ∧
    (∀ i, i < n → (ContainerAssistant.container_pool p n).getD i []
      = p ++ pyZeroPadDec i (Nat.toDigits 10 (n - 1)).length) ∧
    ContainerAssistant.container_pool ("ac".data) 32
      = ["ac00".data, "ac01".data, "ac02".data, "ac03".data, "ac04".data, "ac05".data,
         "ac06".data, "ac07".data, "ac08".data, "ac09".data, "ac10".data, "ac11".data,
         "ac12".data, "ac13".data, "ac14".data, "ac15".data, "ac16".data, "ac17".data,
         "ac18".data, "ac19".data, "ac20".data, "ac21".data, "ac22".data, "ac23".data,
         "ac24".data, "ac25".data, "ac26".data, "ac27".data, "ac28".data, "ac29".data,
         "ac30".data, "ac31".data] := by
  refine ⟨?_, ?_, ?_⟩
  · simp [ContainerAssistant.container_pool]
  · intro i hi
    simp [ContainerAssistant.container_pool, List.getD_eq_getElem?_getD,
      List.getElem?_map, List.getElem?_range, hi]
  · decide

/-- Witness for C6 at the spec's literal example. -/
theorem C6_container_pool_witness :
    (ContainerAssistant.container_pool ("ac".data) 32).length = 32 ∧
    (ContainerAssistant.container_pool ("ac".data) 32).getD 7 []
      = "ac".data ++ pyZeroPadDec 7 (Nat.toDigits 10 (32 - 1)).length :=
  ⟨(C6_container_pool ("ac".data) 32 (by decide)).1,
   (C6_container_pool ("ac".data) 32 (by decide)).2.1 7 (by decide)⟩

/-- C7: `pick_container` answers `(2, None)` exactly when no pool entry is
available; otherwise (with a positive lock duration) it picks an available
entry, answers `(3, None)` when locking it fails, and `(0, entry)` with the
picked entry a member of the available set when locking succeeds. -/
theorem C7_pick_container (env : PoolEnv) (pool : List Str) (lock_sec : Int) :
    (ContainerAssistant.pick_container env pool lock_sec = (2, none) ↔
      ContainerAssistant.available_containers env pool = []) ∧
    (0 < lock_sec →
      ∀ c, ContainerAssistant.random_pick_container env.choose
            (ContainerAssistant.available_containers env pool) = some c →
        (env.lockOk c = false →
          ContainerAssistant.pick_container env pool lock_sec = (3, none)) ∧
        (env.lockOk c = true →
          c ∈ ContainerAssistant.available_containers env pool ∧
          ContainerAssistant.pick_container env pool lock_sec = (0, some c))) := by
  constructor
  · constructor
    · intro hp
      by_contra hne
      unfold ContainerAssistant.pick_container at hp
      rw [if_neg hne] at hp
      by_cases hl : lock_sec > 0
      · rw [if_pos hl] at hp
        by_cases hlk : ContainerAssistant.lock_container env
            ((ContainerAssistant.random_pick_container env.choose
              (ContainerAssistant.available_containers env pool)).getD []) > 0
        · rw [if_pos hlk] at hp
          simp at hp
        · rw [if_neg hlk] at hp
          simp at hp
      · rw [if_neg hl] at hp
        simp at hp
    · intro he
      simp [ContainerAssistant.pick_container, he]
  · intro hl c hc
    have hne : ContainerAssistant.available_containers env pool ≠ [] := by
      intro h0
      rw [ContainerAssistant.random_pick_container, if_pos h0] at hc
      cases hc
    have hcc : (ContainerAssistant.random_pick_container env.choose
        (ContainerAssistant.available_containers env pool)).getD [] = c := by
      rw [ContainerAssistant.random_pick_container, if_neg hne] at hc
      rw [ContainerAssistant.random_pick_container, if_neg hne]
      simpa using hc
    constructor
    · intro hlk
      have hgt : ContainerAssistant.lock_container env
          ((ContainerAssistant.random_pick_container env.choose
            (ContainerAssistant.available_containers env pool)).getD []) > 0 := by
        rw [hcc]
        simp [ContainerAssistant.lock_container, hlk]
      simp [ContainerAssistant.pick_container, hne, hl, hgt]
    · intro hlk
      have hmem : c ∈ ContainerAssistant.available_containers env pool := by
        rw [ContainerAssistant.random_pick_container, if_neg hne] at hc
        have h1 := getD_mod_mem (ContainerAssistant.available_containers env pool)
          env.choose [] hne
        have h2 : (ContainerAssistant.available_containers env pool).getD
            (env.choose % (ContainerAssistant.available_containers env pool).length) []
            = c := Option.some.inj hc
        rw [h2] at h1
        exact h1
      refine ⟨hmem, ?_⟩
      simp [ContainerAssistant.pick_container, hne, hl, hcc,
        ContainerAssistant.lock_container, hlk]

/-- A four-entry pool for the container witnesses. -/
def poolW : List Str := ContainerAssistant.container_pool ("ac".data) 4

/-- Runtime state in which every pool entry already exists. -/
def poolEnvAllBusy : PoolEnv :=
  { unavailable := fun _ => true, lockOk := fun _ => true, choose := 0 }

/-- Runtime state in which every pool entry is free and locking works. -/
def poolEnvFree : PoolEnv :=
  { unavailable := fun _ => false, lockOk := fun _ => true, choose := 1 }

/-- Runtime state in which every pool entry is free but locking fails. -/
def poolEnvLockFail : PoolEnv := { poolEnvFree with lockOk := fun _ => false }

/-- Witness for C7: the three outcomes at concrete pool states. -/
theorem C7_pick_container_witness :
    ContainerAssistant.pick_container poolEnvAllBusy poolW 120 = (2, none) ∧
    ContainerAssistant.pick_container poolEnvLockFail poolW 120 = (3, none) ∧
    ("ac1".data ∈ ContainerAssistant.available_containers poolEnvFree poolW ∧
      ContainerAssistant.pick_container poolEnvFree poolW 120 = (0, some ("ac1".data))) :=
  ⟨(C7_pick_container poolEnvAllBusy poolW 120).1.mpr (by decide),
   ((C7_pick_container poolEnvLockFail poolW 120).2 (by decide) ("ac1".data)
      (by decide)).1 rfl,
   ((C7_pick_container poolEnvFree poolW 120).2 (by decide) ("ac1".data)
      (by decide)).2 rfl⟩

/-- C10: with a non-positive lock duration, `pick_container` performs no lock
operation (its outcome does not depend on lock success at all) and returns
`(0, entry)` whenever some pool entry is available; the `(3, None)` outcome
forces a positive lock duration. -/
theorem C10_pick_container_no_lock (env : PoolEnv) (pool : List Str) (lock_sec : Int) :
    (lock_sec ≤ 0 → ContainerAssistant.available_containers env pool ≠ [] →
      ∃ c ∈ ContainerAssistant.available_containers env pool,
        ContainerAssistant.pick_container env pool lock_sec = (0, some c)) ∧
    (lock_sec ≤ 0 → ∀ lk : Str → Bool,
      ContainerAssistant.pick_container { env with lockOk := lk } pool lock_sec
        = ContainerAssistant.pick_container env pool lock_sec) ∧
    (ContainerAssistant.pick_container env pool lock_sec = (3, none) → 0 < lock_sec) := by
  refine ⟨?_, ?_, ?_⟩
  · intro hl hne
    have hngt : ¬ lock_sec > 0 := by omega
    refine ⟨(ContainerAssistant.random_pick_container env.choose
      (ContainerAssistant.available_containers env pool)).getD [], ?_, ?_⟩
    · rw [ContainerAssistant.random_pick_container, if_neg hne]
      simpa using getD_mod_mem _ env.choose [] hne
    · simp [ContainerAssistant.pick_container, hne, hngt]
  · intro hl lk
    have hngt : ¬ lock_sec > 0 := by omega
    simp [ContainerAssistant.pick_container, ContainerAssistant.available_containers,
      ContainerAssistant.random_pick_container, hngt]
  · intro hp
    by_contra hl
    by_cases hne : ContainerAssistant.available_containers env pool = []
    · simp [ContainerAssistant.pick_container, hne] at hp
    · simp [ContainerAssistant.pick_container, hne, hl] at hp

/-- Witness for C10: with lock duration 0 a free-but-unlockable pool still
yields `(0, entry)`, the outcome is insensitive to the lock oracle, and a
concrete `(3, None)` outcome exhibits a positive duration. -/
theorem C10_pick_container_no_lock_witness :
    (∃ c ∈ ContainerAssistant.available_containers poolEnvLockFail poolW,
      ContainerAssistant.pick_container poolEnvLockFail poolW 0 = (0, some c)) ∧
    ContainerAssistant.pick_container { poolEnvLockFail with lockOk := fun _ => true } poolW 0
      = ContainerAssistant.pick_container poolEnvLockFail poolW 0 ∧
    (0 : Int) < 120 :=
  ⟨(C10_pick_container_no_lock poolEnvLockFail poolW 0).1 (by decide) (by decide),
   (C10_pick_container_no_lock poolEnvLockFail poolW 0).2.1 (by decide) (fun _ => true),
   (C10_pick_container_no_lock poolEnvLockFail poolW 120).2.2 (by decide)⟩

/-- C3: each step of `_run` degrades a thrown exception to its own code —
zone resolution to 21, container acquisition to 31, provisioning to 41, test
invocation to 11 — and `run_attempt` is a total `Int`-valued function over
every environment (all exception combinations included), which embeds that
`_run` never propagates an exception to its caller. -/
theorem C3_run_attempt_exception_codes (env : ExecEnv) (flavor : Str) :
    (TestExecutor.resolve_azone env flavor = Except.error () →
      TestExecutor.run_attempt env flavor = 21) ∧
    (∀ az, TestExecutor.resolve_azone env flavor = Except.ok (Sum.inr az) →
      env.pickContainer = Except.error () →
      TestExecutor.run_attempt env flavor = 31) ∧
    (∀ az res c, TestExecutor.resolve_azone env flavor = Except.ok (Sum.inr az) →
      env.pickContainer = Except.ok (res, c) → res ≤ 0 →
      env.provision c flavor az = Except.error () →
      TestExecutor.run_attempt env flavor = 41) ∧
    (∀ az res c pres, TestExecutor.resolve_azone env flavor = Except.ok (Sum.inr az) →
      env.pickContainer = Except.ok (res, c) → res ≤ 0 →
      env.provision c flavor az = Except.ok pres → pres ≤ 0 →
      env.runTest c flavor = Except.error () →
      TestExecutor.run_attempt env flavor = 11) := by
  refine ⟨?_, ?_, ?_, ?_⟩
  · intro h
    simp [TestExecutor.run_attempt, h]
  · intro az h hc
    simp [TestExecutor.run_attempt, h, TestExecutor.run_after_zone, hc]
  · intro az res c h hc hres hp
    have hres' : ¬ res > 0 := by omega
    simp [TestExecutor.run_attempt, h, TestExecutor.run_after_zone, hc, hres', hp]
  · intro az res c pres h hc hres hp hpres ht
    have hres' : ¬ res > 0 := by omega
    have hpres' : ¬ pres > 0 := by omega
    simp [TestExecutor.run_attempt, h, TestExecutor.run_after_zone, hc, hres', hp,
      hpres', ht]

/-- Environment whose zone resolution throws. -/
def execEnvErrZone : ExecEnv :=
  { zone := []
    pickAzone := fun _ => Except.error ()
    pickContainer := Except.ok (0, some ("ac00".data))
    provision := fun _ _ _ => Except.ok 0
    runTest := fun _ _ => Except.ok 0 }

/-- Environment whose container acquisition throws. -/
def execEnvErrCont : ExecEnv :=
  { execEnvErrZone with
    pickAzone := fun _ => Except.ok (Sum.inr ("cn-beijing-h".data))
    pickContainer := Except.error () }

/-- Environment whose provisioning throws. -/
def execEnvErrProv : ExecEnv :=
  { execEnvErrCont with
    pickContainer := Except.ok (0, some ("ac00".data))
    provision := fun _ _ _ => Except.error () }

/-- Environment whose test invocation throws. -/
def execEnvErrTest : ExecEnv :=
  { execEnvErrProv with
    provision := fun _ _ _ => Except.ok 0
    runTest := fun _ _ => Except.error () }

/-- Witness for C3: the four exception codes at concrete environments. -/
theorem C3_run_attempt_exception_codes_witness :
    TestExecutor.run_attempt execEnvErrZone flavorW = 21 ∧
    TestExecutor.run_attempt execEnvErrCont flavorW = 31 ∧
    TestExecutor.run_attempt execEnvErrProv flavorW = 41 ∧
    TestExecutor.run_attempt execEnvErrTest flavorW = 11 :=
  ⟨(C3_run_attempt_exception_codes execEnvErrZone flavorW).1 rfl,
   (C3_run_attempt_exception_codes execEnvErrCont flavorW).2.1
      ("cn-beijing-h".data) rfl rfl,
   (C3_run_attempt_exception_codes execEnvErrProv flavorW).2.2.1
      ("cn-beijing-h".data) 0 (some ("ac00".data)) rfl rfl (by decide) rfl,
   (C3_run_attempt_exception_codes execEnvErrTest flavorW).2.2.2
      ("cn-beijing-h".data) 0 (some ("ac00".data)) 0 rfl rfl (by decide) rfl
      (by decide) rfl⟩

/-- C2: `run_container` returns the external test runner's exit code
verbatim when not in dry-run mode, and at the executor boundary a raw test
exit `r` with `1 ≤ r ≤ 6` is exposed as `10 + r` while raw 0 is exposed
as 0. -/
theorem C2_run_container_offset :
    (∀ (d : Nat) (r : Int), ContainerAssistant.run_container false d r = r) ∧
    (∀ (env : ExecEnv) (flavor az c : Str) (r : Int),
      TestExecutor.resolve_azone env flavor = Except.ok (Sum.inr az) →
      env.pickContainer = Except.ok (0, some c) →
      env.provision (some c) flavor az = Except.ok 0 →
      env.runTest (some c) flavor = Except.ok r →
      ((1 ≤ r → r ≤ 6 → TestExecutor.run_attempt env flavor = 10 + r) ∧
       (r = 0 → TestExecutor.run_attempt env flavor = 0))) := by
  constructor
  · intro d r
    simp [ContainerAssistant.run_container]
  · intro env flavor az c r h hc hp ht
    constructor
    · intro h1 _h6
      have hr : r > 0 := by omega
      have hplus : r + 10 = 10 + r := by omega
      simp [TestExecutor.run_attempt, h, TestExecutor.run_after_zone, hc, hp, ht, hr,
        hplus]
    · intro h0
      subst h0
      simp [TestExecutor.run_attempt, h, TestExecutor.run_after_zone, hc, hp, ht]

/-- Environment whose test run returns raw exit 5, behind a configured
zone. -/
def execEnvRun5 : ExecEnv :=
  { zone := "cn-beijing-h".data
    pickAzone := fun _ => Except.error ()
    pickContainer := Except.ok (0, some ("ac00".data))
    provision := fun _ _ _ => Except.ok 0
    runTest := fun _ _ => Except.ok 5 }

/-- Environment whose test run returns raw exit 0. -/
def execEnvRun0 : ExecEnv := { execEnvRun5 with runTest := fun _ _ => Except.ok 0 }

/-- Witness for C2: the verbatim return and the `+10` offset at raw exits 5
and 0. -/
theorem C2_run_container_offset_witness :
    ContainerAssistant.run_container false 3 7 = 7 ∧
    TestExecutor.run_attempt execEnvRun5 flavorW = 15 ∧
    TestExecutor.run_attempt execEnvRun0 flavorW = 0 :=
  ⟨C2_run_container_offset.1 3 7,
   by
    have h := (C2_run_container_offset.2 execEnvRun5 flavorW ("cn-beijing-h".data)
      ("ac00".data) 5 rfl rfl rfl rfl).1 (by decide) (by decide)
    simpa using h,
   (C2_run_container_offset.2 execEnvRun0 flavorW ("cn-beijing-h".data)
      ("ac00".data) 0 rfl rfl rfl rfl).2 rfl⟩

/-- C8: a configured (truthy) zone override is used verbatim as the
availability zone of every attempt — the zone step resolves to the override
and the rest of the attempt receives it — and the zone-resolution component
of the environment is never consulted: the attempt's outcome is unchanged
under any replacement of it. -/
theorem C8_zone_override (env : ExecEnv) (flavor : Str) (h : env.zone ≠ []) :
    TestExecutor.resolve_azone env flavor = Except.ok (Sum.inr env.zone) ∧
    TestExecutor.run_attempt env flavor
      = TestExecutor.run_after_zone env flavor env.zone ∧
    (∀ pa : Str → Except Unit (Sum Int Str),
      TestExecutor.run_attempt { env with pickAzone := pa } flavor
        = TestExecutor.run_attempt env flavor) := by
  have h1 : TestExecutor.resolve_azone env flavor = Except.ok (Sum.inr env.zone) := by
    simp [TestExecutor.resolve_azone, h]
  refine ⟨h1, ?_, ?_⟩
  · simp [TestExecutor.run_attempt, h1]
  · intro pa
    have h2 : TestExecutor.resolve_azone { env with pickAzone := pa } flavor
        = Except.ok (Sum.inr env.zone) := by
      simp [TestExecutor.resolve_azone, h]
    simp [TestExecutor.run_attempt, h1, h2, TestExecutor.run_after_zone]

/-- Witness for C8: with the override set, the attempt's code is insensitive
to a zone resolver that would throw. -/
theorem C8_zone_override_witness :
    TestExecutor.resolve_azone execEnvRun5 flavorW
      = Except.ok (Sum.inr execEnvRun5.zone) ∧
    TestExecutor.run_attempt execEnvRun5 flavorW
      = TestExecutor.run_after_zone execEnvRun5 flavorW execEnvRun5.zone ∧
    TestExecutor.run_attempt
        { execEnvRun5 with pickAzone := fun _ => Except.ok (Sum.inl 2) } flavorW
      = TestExecutor.run_attempt execEnvRun5 flavorW :=
  ⟨(C8_zone_override execEnvRun5 flavorW (by decide)).1,
   (C8_zone_override execEnvRun5 flavorW (by decide)).2.1,
   (C8_zone_override execEnvRun5 flavorW (by decide)).2.2
      (fun _ => Except.ok (Sum.inl 2))⟩

/-- C9: outcome handling routes codes 12, 23, 24, 31, 32, 33 to the resource
budget (decrementing `remaining_retries_resource` and requeueing as
`TOBERUN`), code 15 to the testcase budget, and every other code terminates
the task as `FINISHED` with both counters and the history untouched.  The
decrement branch requires the decremented counter to be positive, as the
spec's retry mode does. -/
theorem C9_retry_routing (t : TaskRecord) (code : Int) :
    (code ∈ resource_retry_codes → 0 < t.remaining_retries_resource →
      (handle_outcome t code).status = TaskStatus.TOBERUN ∧
      (handle_outcome t code).remaining_retries_resource
        = t.remaining_retries_resource - 1 ∧
      (handle_outcome t code).remaining_retries_testcase
        = t.remaining_retries_testcase) ∧
    (code = 15 → 0 < t.remaining_retries_testcase →
      (handle_outcome t code).status = TaskStatus.TOBERUN ∧
      (handle_outcome t code).remaining_retries_testcase
        = t.remaining_retries_testcase - 1 ∧
      (handle_outcome t code).remaining_retries_resource
        = t.remaining_retries_resource) ∧
    (code ∉ resource_retry_codes → code ≠ 15 →
      handle_outcome t code
        = { t with status := TaskStatus.FINISHED, status_code := some code }) := by
  refine ⟨?_, ?_, ?_⟩
  · intro hc hpos
    have h0 : ¬ t.remaining_retries_resource = 0 := by omega
    simp [handle_outcome, hc, h0]
  · intro hc hpos
    have h15 : (15 : Int) ∉ resource_retry_codes := by decide
    have h0 : ¬ t.remaining_retries_testcase = 0 := by omega
    simp [handle_outcome, hc, h15, testcase_retry_codes, h0]
  · intro h1 h2
    have h3 : code ∉ testcase_retry_codes := by
      simpa [testcase_retry_codes] using h2
    simp [handle_outcome, h1, h3]

/-- A running task with budgets 3 (testcase) and 10 (resource). -/
def taskW : TaskRecord :=
  { status := TaskStatus.RUNNING
    remaining_retries_testcase := 3
    remaining_retries_resource := 10
    status_code := none
    history := [] }

/-- Witness for C9: codes 24, 15 and 0 at a concrete record. -/
theorem C9_retry_routing_witness :
    ((handle_outcome taskW 24).status = TaskStatus.TOBERUN ∧
      (handle_outcome taskW 24).remaining_retries_resource
        = taskW.remaining_retries_resource - 1 ∧
      (handle_outcome taskW 24).remaining_retries_testcase
        = taskW.remaining_retries_testcase) ∧
    ((handle_outcome taskW 15).status = TaskStatus.TOBERUN ∧
      (handle_outcome taskW 15).remaining_retries_testcase
        = taskW.remaining_retries_testcase - 1 ∧
      (handle_outcome taskW 15).remaining_retries_resource
        = taskW.remaining_retries_resource) ∧
    handle_outcome taskW 0
      = { taskW with status := TaskStatus.FINISHED, status_code := some 0 } :=
  ⟨(C9_retry_routing taskW 24).1 (by decide) (by decide),
   (C9_retry_routing taskW 15).2.1 rfl (by decide),
   (C9_retry_routing taskW 0).2.2 (by decide) (by decide)⟩
